import Mathlib

/-!
Verification development for the LightRAG multi-tenant management shim.

Shallow embedding of:
- `src/lightrag/api/auth.py` (`AuthHandler`: token issuance and validation),
- `src/lightrag/api/rag_manager.py` (`RagManager`: per-workspace lifecycle),
- `src/lightrag/api/proxy.py` (workspace-bound forwarding proxies),
plus a small-step interleaving model of concurrent
`ensure_tenant_initialized` calls for a single workspace key.

External collaborators (the PyJWT library, the `LightRAG` engine class and
the `DocumentManager` class) are modelled by their call contracts: the engine
is a record whose asynchronous setup steps are represented by outcome
oracles, and PyJWT decoding is a function that verifies the signature and
the `exp` claim.
-/

namespace LightRAGSpec

/-- Association-list lookup with string keys, modelling Python dict lookup
(`d[k]` / `k in d`). -/
def lookupA {α : Type} : List (String × α) → String → Option α
  | [], _ => none
  | (k0, v) :: t, k => if k0 = k then some v else lookupA t k

/-- Association-list update-or-append, modelling Python dict assignment
`d[k] = v` (insertion order preserved, existing key overwritten). -/
def insertA {α : Type} : List (String × α) → String → α → List (String × α)
  | [], k, v => [(k, v)]
  | (k0, v0) :: t, k, v => if k0 = k then (k, v) :: t else (k0, v0) :: insertA t k v

/-! ## Token service (`src/lightrag/api/auth.py`) -/

/-- A user record from `users.json` (multi-tenant mode); fields mirror the
keys read by `AuthHandler.load_users` and `get_user_workspace`. -/
structure UserRecord where
  username : String
  password : Option String
  api_key : Option String
  role : Option String
  workspace : Option String
deriving DecidableEq

/-- `TokenPayload` (pydantic model): subject, expiry timestamp (seconds),
role, free-form metadata. The expiry is the integer timestamp the JWT
library serializes the `exp` datetime to. -/
structure TokenPayload where
  sub : String
  exp : Int
  role : String
  metadata : List (String × String)
deriving DecidableEq

/-- An encoded JWT: the payload together with the secret and algorithm it
was signed with (`jwt.encode(payload, secret, algorithm)`). -/
structure Token where
  payload : TokenPayload
  secret : String
  algorithm : String
deriving DecidableEq

/-- Errors of the external PyJWT library that `jwt.decode` can raise; both
are subclasses of `jwt.PyJWTError`, so both are caught by the
`except jwt.PyJWTError` handler in `validate_token`. -/
inductive PyJWTError where
  | invalidTokenError
  | expiredSignatureError
deriving DecidableEq

/-- Contract of the external `jwt.decode(token, secret, algorithms=[alg])`:
verifies the signature (secret and algorithm must match the ones the token
was signed with) and validates the `exp` claim with zero leeway, raising
`ExpiredSignatureError` when `exp <= now`; on success returns the payload. -/
def jwtDecode (tok : Token) (secret : String) (algorithm : String) (now : Int) :
    Except PyJWTError TokenPayload :=
  if tok.secret = secret ∧ tok.algorithm = algorithm then
    if tok.payload.exp ≤ now then .error .expiredSignatureError
    else .ok tok.payload
  else .error .invalidTokenError

/-- `fastapi.HTTPException(status_code, detail)`. -/
structure HTTPException where
  status_code : Nat
  detail : String
deriving DecidableEq

/-- The dictionary returned by a successful `AuthHandler.validate_token`. -/
structure ValidatedUser where
  username : String
  role : String
  metadata : List (String × String)
  exp : Int
  workspace : String
deriving DecidableEq

/-- `AuthHandler` state after construction: configuration plus the merged
credential tables (`accounts`, `api_keys`, `user_map`). -/
structure AuthHandler where
  secret : String
  algorithm : String
  expire_hours : Int
  guest_expire_hours : Int
  accounts : List (String × String)
  api_keys : List (String × UserRecord)
  user_map : List (String × UserRecord)
deriving DecidableEq

/-- `AuthHandler.get_user_workspace`: workspace configured for a username,
`"default"` when the user is unknown or has no workspace field. -/
def AuthHandler.get_user_workspace (h : AuthHandler) (username : String) : String :=
  match lookupA h.user_map username with
  | some user => user.workspace.getD "default"
  | none => "default"

/-- `AuthHandler.validate_api_key`: pure lookup in the API-key table. -/
def AuthHandler.validate_api_key (h : AuthHandler) (api_key : String) :
    Option ValidatedUser :=
  match lookupA h.api_keys api_key with
  | some user =>
      some { username := user.username
             role := user.role.getD "user"
             metadata := [("auth_mode", "api_key")]
             exp := 0
             workspace := user.workspace.getD "default" }
  | none => none

/-- `AuthHandler.create_token`: picks the expiry horizon from the explicit
argument or the role-dependent default, computes the absolute expiry
(`utcnow() + timedelta(hours=expire_hours)`, here in seconds), and signs
the pydantic payload. `now` is the issuance time. -/
def AuthHandler.create_token (h : AuthHandler) (username : String) (role : String)
    (custom_expire_hours : Option Int) (metadata : Option (List (String × String)))
    (now : Int) : Token :=
  let expire_hours : Int :=
    match custom_expire_hours with
    | none => if role = "guest" then h.guest_expire_hours else h.expire_hours
    | some c => c
  { payload :=
      { sub := username
        exp := now + expire_hours * 3600
        role := role
        metadata := metadata.getD [] }
    secret := h.secret
    algorithm := h.algorithm }

/-- `AuthHandler.validate_token`. `nowDecode` is the clock reading the JWT
library uses inside `jwt.decode`, `nowCheck` the (equal or later) reading
of the explicit `datetime.utcnow() > expire_time` re-check. Any
`PyJWTError` from decoding maps to the 401 "Invalid token" response; the
explicit re-check maps to 401 "Token expired"; on success the payload is
augmented with the workspace resolved from the credential store, injected
into the metadata only when not already present there. -/
def AuthHandler.validate_token (h : AuthHandler) (token : Token)
    (nowDecode nowCheck : Int) : Except HTTPException ValidatedUser :=
  match jwtDecode token h.secret h.algorithm nowDecode with
  | .error _ => .error { status_code := 401, detail := "Invalid token" }
  | .ok payload =>
      if nowCheck > payload.exp then
        .error { status_code := 401, detail := "Token expired" }
      else
        let username := payload.sub
        let workspace := h.get_user_workspace username
        let metadata :=
          if (lookupA payload.metadata "workspace").isSome then payload.metadata
          else insertA payload.metadata "workspace" workspace
        .ok { username := username
              role := payload.role
              metadata := metadata
              exp := payload.exp
              workspace := workspace }

/-- Concrete user record for concrete-input checks: alice with workspace
"acme" (the scenario from the credential-file example). -/
def aliceRecord : UserRecord :=
  { username := "alice", password := some "pw", api_key := none,
    role := none, workspace := some "acme" }

/-- Concrete auth handler for concrete-input checks. -/
def hA : AuthHandler :=
  { secret := "s3cret", algorithm := "HS256",
    expire_hours := 24, guest_expire_hours := 2,
    accounts := [("alice", "pw")], api_keys := [],
    user_map := [("alice", aliceRecord)] }

/-- A token for alice issued at time 1000 with `expire_hours = 0`, so its
decoded expiry is exactly 1000. -/
def tokExpired : Token := hA.create_token "alice" "user" (some 0) none 1000

/-- A token for alice carrying a metadata-embedded workspace different from
the one configured in the credential store. -/
def tokMetaWorkspace : Token :=
  { payload := { sub := "alice", exp := 100, role := "user",
                 metadata := [("workspace", "evil")] }
    secret := "s3cret", algorithm := "HS256" }

/-- The result of validating `tokMetaWorkspace`: top-level workspace from
the credential store, embedded workspace only inside the metadata. -/
def rMeta : ValidatedUser :=
  { username := "alice", role := "user", metadata := [("workspace", "evil")],
    exp := 100, workspace := "acme" }

/-! ## Tenant lifecycle manager (`src/lightrag/api/rag_manager.py`)

The `LightRAG` engine and `DocumentManager` classes are external; each is
modelled as a record of its constructor arguments (the parameter template
plus the substituted workspace) together with, for the engine, two flags
recording whether its asynchronous setup steps have completed. The
outcomes of the awaited collaborator calls `initialize_storages()` /
`check_and_migrate_data()` are supplied by oracles (`none` = returns
normally, `some e` = raises exception `e`). -/

/-- A constructed `LightRAG` engine instance. A freshly constructed
instance has both setup flags `false`; `initialize_storages` success sets
`storagesInitialized`, `check_and_migrate_data` success sets `migrated`. -/
structure LightRAG where
  workspace : String
  params : String
  storagesInitialized : Bool
  migrated : Bool
deriving DecidableEq

/-- A constructed `DocumentManager` instance (construction only, no
asynchronous setup step). -/
structure DocumentManager where
  workspace : String
  params : String
deriving DecidableEq

/-- `RagManager` state: the construction parameter templates, the
ready-instance table `rag_instances`, the doc-manager table
`doc_managers`, and the set of workspace keys having a per-key lock in
`init_locks`. -/
structure RagManager where
  rag_init_params : String
  doc_manager_params : String
  rag_instances : List (String × LightRAG)
  doc_managers : List (String × DocumentManager)
  init_locks : List String
deriving DecidableEq

/-- Outcome oracles for the awaited collaborator calls of one
`ensure_tenant_initialized` execution: per workspace, whether
`rag.initialize_storages()` and `rag.check_and_migrate_data()` return
normally (`none`) or raise (`some errorMessage`). -/
structure Outcomes where
  initStoragesOk : String → Option String
  migrateOk : String → Option String

/-- Observable events of a manager operation, used to count and order the
collaborator calls it performs. -/
inductive Ev where
  | acquireLock (ws : String)
  | construct (ws : String)
  | initStorages (ws : String)
  | migrateData (ws : String)
  | publish (ws : String)
  | createDocManager (ws : String)
  | finalize (ws : String)
  | logFinalizeError (ws : String)
deriving DecidableEq

/-- `RagManager._create_rag`: copy the template, substitute the workspace,
call the `LightRAG` constructor. -/
def RagManager._create_rag (m : RagManager) (ws : String) : LightRAG :=
  { workspace := ws, params := m.rag_init_params,
    storagesInitialized := false, migrated := false }

/-- `RagManager._create_doc_manager`: copy the template, substitute the
workspace, call the `DocumentManager` constructor. -/
def RagManager._create_doc_manager (m : RagManager) (ws : String) : DocumentManager :=
  { workspace := ws, params := m.doc_manager_params }

/-- `RagManager.get_rag`: return the cached instance for the workspace, or
(fallback path, with a warning logged) synchronously construct a fresh one
and return it without caching it. The manager state is returned alongside
to make the absence of mutation explicit. -/
def RagManager.get_rag (m : RagManager) (ws : String) : LightRAG × RagManager :=
  match lookupA m.rag_instances ws with
  | none => (m._create_rag ws, m)
  | some rg => (rg, m)

/-- `RagManager.get_doc_manager`: return the cached doc manager, lazily
constructing and caching it when absent. -/
def RagManager.get_doc_manager (m : RagManager) (ws : String) :
    DocumentManager × RagManager :=
  match lookupA m.doc_managers ws with
  | none =>
      let dm := m._create_doc_manager ws
      (dm, { m with doc_managers := insertA m.doc_managers ws dm })
  | some dm => (dm, m)

/-- `RagManager.ensure_tenant_initialized`, sequential execution (the lock
acquisitions succeed immediately; the interleaved execution is modelled
separately below). Returns the call outcome, the post-state, and the event
trace. Fast path: cached workspace returns at once with an empty trace.
Otherwise the per-key lock is ensured (under the global lock) and
acquired, the table is re-checked, and on a miss the instance is
constructed and its two setup steps awaited in order; only full success
publishes the instance (and lazily the doc manager); an exception leaves
both tables untouched and is re-raised. -/
def RagManager.ensure_tenant_initialized (m : RagManager) (ws : String)
    (oc : Outcomes) : Except String Unit × RagManager × List Ev :=
  if (lookupA m.rag_instances ws).isSome then
    (.ok (), m, [])
  else
    let m1 : RagManager :=
      { m with init_locks :=
          if ws ∈ m.init_locks then m.init_locks else m.init_locks ++ [ws] }
    if (lookupA m1.rag_instances ws).isSome then
      (.ok (), m1, [Ev.acquireLock ws])
    else
      let rag0 := m1._create_rag ws
      match oc.initStoragesOk ws with
      | some e =>
          (.error e, m1, [Ev.acquireLock ws, Ev.construct ws, Ev.initStorages ws])
      | none =>
          let rag1 := { rag0 with storagesInitialized := true }
          match oc.migrateOk ws with
          | some e =>
              (.error e, m1,
               [Ev.acquireLock ws, Ev.construct ws, Ev.initStorages ws,
                Ev.migrateData ws])
          | none =>
              let rag2 := { rag1 with migrated := true }
              let m2 := { m1 with rag_instances := insertA m1.rag_instances ws rag2 }
              if (lookupA m2.doc_managers ws).isSome then
                (.ok (), m2,
                 [Ev.acquireLock ws, Ev.construct ws, Ev.initStorages ws,
                  Ev.migrateData ws, Ev.publish ws])
              else
                (.ok (),
                 { m2 with doc_managers :=
                     insertA m2.doc_managers ws (m2._create_doc_manager ws) },
                 [Ev.acquireLock ws, Ev.construct ws, Ev.initStorages ws,
                  Ev.migrateData ws, Ev.publish ws, Ev.createDocManager ws])

/-- `RagManager.finalize_all`: iterate the ready-instance table in order,
awaiting `finalize_storages()` on each instance; an exception from one
workspace is caught and logged, and the iteration continues. `fo` is the
outcome oracle for the `finalize_storages` calls. -/
def RagManager.finalize_all (m : RagManager) (fo : String → Option String) :
    Except String Unit × RagManager × List Ev :=
  (.ok (), m,
   m.rag_instances.foldl
     (fun acc p =>
       acc ++ Ev.finalize p.1 ::
         (match fo p.1 with
          | some _ => [Ev.logFinalizeError p.1]
          | none => []))
     [])

/-- The workspaces on which `finalize_storages` was invoked, in call
order, extracted from an event trace. -/
def finalizeCalls (tr : List Ev) : List String :=
  tr.filterMap (fun e =>
    match e with
    | Ev.finalize ws => some ws
    | _ => none)

/-- Ready-table invariant: every instance stored in `rag_instances` has
completed both `initialize_storages` and `check_and_migrate_data`
successfully. -/
def ReadyInv (m : RagManager) : Prop :=
  ∀ ws rag, lookupA m.rag_instances ws = some rag →
    rag.storagesInitialized = true ∧ rag.migrated = true

/-! ## Workspace-bound proxies (`src/lightrag/api/proxy.py`) -/

/-- `current_workspace.get()`: the ambient context variable holding the
current workspace, with default `"default"` when never set in the current
context. -/
def current_workspace_get (ctx : Option String) : String := ctx.getD "default"

/-- A value produced by a Python attribute access on a modelled instance;
`none` from the access functions below means `AttributeError`. -/
inductive AttrVal where
  | str (s : String)
  | bool (b : Bool)
deriving DecidableEq

/-- Attribute surface of a modelled `LightRAG` instance. -/
def LightRAG.getattr (rg : LightRAG) (name : String) : Option AttrVal :=
  if name = "workspace" then some (.str rg.workspace)
  else if name = "params" then some (.str rg.params)
  else if name = "storages_ready" then some (.bool rg.storagesInitialized)
  else if name = "migrated" then some (.bool rg.migrated)
  else none

/-- Attribute surface of a modelled `DocumentManager` instance. -/
def DocumentManager.getattr (dm : DocumentManager) (name : String) : Option AttrVal :=
  if name = "workspace" then some (.str dm.workspace)
  else if name = "params" then some (.str dm.params)
  else none

/-- Result of an attribute access on a proxy: either resolved on the proxy
object itself (its own members, for which Python never calls
`__getattr__`), or forwarded to the per-workspace instance. -/
inductive ProxyAttr where
  | own
  | forwarded (v : Option AttrVal)
deriving DecidableEq

/-- `LightRAGProxy`: holds the manager reference. -/
structure LightRAGProxy where
  rag_manager : RagManager

/-- Members found on the `LightRAGProxy` object/class itself, for which
`__getattr__` is not invoked. -/
def lightRAGProxyOwnMembers : List String :=
  ["rag_manager", "_get_instance", "get_bound_instance"]

/-- `LightRAGProxy._get_instance`: resolve the instance for the current
ambient workspace via `RagManager.get_rag`. -/
def LightRAGProxy._get_instance (p : LightRAGProxy) (ctx : Option String) : LightRAG :=
  (p.rag_manager.get_rag (current_workspace_get ctx)).1

/-- `LightRAGProxy.get_bound_instance`. -/
def LightRAGProxy.get_bound_instance (p : LightRAGProxy) (ctx : Option String) :
    LightRAG :=
  p._get_instance ctx

/-- Attribute access on the RAG-engine proxy: own members resolve on the
proxy; every other name goes through `__getattr__`, i.e.
`getattr(self._get_instance(), name)`. -/
def LightRAGProxy.access (p : LightRAGProxy) (ctx : Option String)
    (name : String) : ProxyAttr :=
  if name ∈ lightRAGProxyOwnMembers then .own
  else .forwarded ((p._get_instance ctx).getattr name)

/-- `DocumentManagerProxy`: holds the manager reference. -/
structure DocumentManagerProxy where
  rag_manager : RagManager

/-- Members found on the `DocumentManagerProxy` object/class itself. -/
def documentManagerProxyOwnMembers : List String :=
  ["rag_manager", "_get_instance", "get_bound_instance"]

/-- `DocumentManagerProxy._get_instance`: resolve via
`RagManager.get_doc_manager`, which may lazily cache (so the possibly
updated manager is returned alongside). -/
def DocumentManagerProxy._get_instance (p : DocumentManagerProxy)
    (ctx : Option String) : DocumentManager × RagManager :=
  p.rag_manager.get_doc_manager (current_workspace_get ctx)

/-- Attribute access on the document-manager proxy. -/
def DocumentManagerProxy.access (p : DocumentManagerProxy) (ctx : Option String)
    (name : String) : ProxyAttr × RagManager :=
  if name ∈ documentManagerProxyOwnMembers then (.own, p.rag_manager)
  else
    let (dm, m') := p._get_instance ctx
    (.forwarded (dm.getattr name), m')

/-- Concrete ready instance used in concrete-input checks. -/
def readyRag : LightRAG :=
  { workspace := "w1", params := "p", storagesInitialized := true, migrated := true }

/-- Concrete manager whose ready table holds one fully initialized
instance. -/
def mReady : RagManager :=
  { rag_init_params := "p", doc_manager_params := "q",
    rag_instances := [("w1", readyRag)], doc_managers := [], init_locks := [] }

/-- Concrete empty manager. -/
def mEmpty : RagManager :=
  { rag_init_params := "p", doc_manager_params := "q",
    rag_instances := [], doc_managers := [], init_locks := [] }

/-- Oracle on which both setup steps always succeed. -/
def ocOk : Outcomes :=
  { initStoragesOk := fun _ => none, migrateOk := fun _ => none }

/-- Oracle on which `initialize_storages` always raises `"boom"`. -/
def ocFail : Outcomes :=
  { initStoragesOk := fun _ => some "boom", migrateOk := fun _ => none }

/-! ## Interleaved executions of `ensure_tenant_initialized` (one key)

Small-step model of N concurrent tasks all calling
`ensure_tenant_initialized(k)` for one fixed workspace key `k`, following
asyncio's cooperative scheduling: code between suspension points runs
atomically, and the only suspension points are contended acquisition of
the per-key lock and the two awaited collaborator calls
(`initialize_storages`, `check_and_migrate_data`). `asyncio.Lock.acquire`
on a free lock returns without yielding, so the fast-path check, the
lock-table update under the global lock, an uncontended per-key lock
acquisition, the double-check of the cache and the constructor call form
one atomic segment. -/
namespace Conc

/-- Program counter of one task inside `ensure_tenant_initialized(k)`. -/
inductive PC where
  /-- About to run the fast-path check. -/
  | start
  /-- Suspended waiting for the per-key lock. -/
  | waiting
  /-- Holding the lock, instance constructed, about to await
  `initialize_storages`. -/
  | atInit
  /-- Holding the lock, about to await `check_and_migrate_data`. -/
  | atMigrate
  /-- Returned normally. -/
  | doneOk
  /-- Exception propagated to the caller. -/
  | doneErr
deriving DecidableEq

/-- Whether both awaited collaborator calls return normally; deterministic
across attempts within one system run. -/
structure Oracle where
  initOk : Bool
  migOk : Bool
deriving DecidableEq

/-- System state: whether `k` is in `rag_instances` (`cached`), whether
the per-key lock is held, how many `LightRAG` constructions,
`initialize_storages` calls and `check_and_migrate_data` calls have run,
and the program counter of every task. -/
structure CState where
  cached : Bool
  lockBusy : Bool
  constructions : Nat
  initCalls : Nat
  migrateCalls : Nat
  tasks : List PC
deriving DecidableEq

/-- One atomic segment of one task (the stepped task sits between `l` and
`r` in the task list). -/
inductive Step (o : Oracle) : CState → CState → Prop where
  /-- Fast path: the key is cached, return immediately. -/
  | fast (l r : List PC) (lk : Bool) (c i m : Nat) :
      Step o ⟨true, lk, c, i, m, l ++ PC.start :: r⟩
             ⟨true, lk, c, i, m, l ++ PC.doneOk :: r⟩
  /-- Not cached and lock free: ensure the per-key lock exists, acquire it
  without yielding, re-check the cache (still a miss), construct. -/
  | acquireConstruct (l r : List PC) (c i m : Nat) :
      Step o ⟨false, false, c, i, m, l ++ PC.start :: r⟩
             ⟨false, true, c + 1, i, m, l ++ PC.atInit :: r⟩
  /-- Not cached and the per-key lock contended: suspend in the lock's
  waiter queue. -/
  | enqueue (l r : List PC) (lk : Bool) (c i m : Nat) :
      Step o ⟨false, lk, c, i, m, l ++ PC.start :: r⟩
             ⟨false, lk, c, i, m, l ++ PC.waiting :: r⟩
  /-- A waiter resumes with the lock, re-checks the cache, hits, releases
  the lock and returns. -/
  | wakeHit (l r : List PC) (c i m : Nat) :
      Step o ⟨true, false, c, i, m, l ++ PC.waiting :: r⟩
             ⟨true, false, c, i, m, l ++ PC.doneOk :: r⟩
  /-- A waiter resumes with the lock, re-checks the cache, still a miss,
  constructs. -/
  | wakeConstruct (l r : List PC) (c i m : Nat) :
      Step o ⟨false, false, c, i, m, l ++ PC.waiting :: r⟩
             ⟨false, true, c + 1, i, m, l ++ PC.atInit :: r⟩
  /-- `initialize_storages` returns normally. -/
  | initSucc (l r : List PC) (b : Bool) (c i m : Nat) (h : o.initOk = true) :
      Step o ⟨b, true, c, i, m, l ++ PC.atInit :: r⟩
             ⟨b, true, c, i + 1, m, l ++ PC.atMigrate :: r⟩
  /-- `initialize_storages` raises: the lock is released on exit and the
  exception propagates. -/
  | initFail (l r : List PC) (b : Bool) (c i m : Nat) (h : o.initOk = false) :
      Step o ⟨b, true, c, i, m, l ++ PC.atInit :: r⟩
             ⟨b, false, c, i + 1, m, l ++ PC.doneErr :: r⟩
  /-- `check_and_migrate_data` returns normally: publish into
  `rag_instances`, release the lock, return. -/
  | migSucc (l r : List PC) (b : Bool) (c i m : Nat) (h : o.migOk = true) :
      Step o ⟨b, true, c, i, m, l ++ PC.atMigrate :: r⟩
             ⟨true, false, c, i, m + 1, l ++ PC.doneOk :: r⟩
  /-- `check_and_migrate_data` raises: release the lock, propagate. -/
  | migFail (l r : List PC) (b : Bool) (c i m : Nat) (h : o.migOk = false) :
      Step o ⟨b, true, c, i, m, l ++ PC.atMigrate :: r⟩
             ⟨b, false, c, i, m + 1, l ++ PC.doneErr :: r⟩

/-- Initial state: key uncached, lock free, no collaborator calls yet, N
tasks all about to enter `ensure_tenant_initialized(k)`. -/
def init (n : Nat) : CState :=
  ⟨false, false, 0, 0, 0, List.replicate n PC.start⟩

/-- Reachability under any interleaving. -/
def Reaches (o : Oracle) : CState → CState → Prop :=
  Relation.ReflTransGen (Step o)

/-- All tasks have returned (normally or exceptionally). -/
def Final (s : CState) : Prop :=
  ∀ pc ∈ s.tasks, pc = PC.doneOk ∨ pc = PC.doneErr

/-- Weight 1 for a task inside the critical section (holding the per-key
lock). -/
def wActive : PC → Nat
  | PC.atInit => 1
  | PC.atMigrate => 1
  | _ => 0

/-- Weight 1 for a task about to await `initialize_storages`. -/
def wAtInit : PC → Nat
  | PC.atInit => 1
  | _ => 0

/-- Weight 1 for a task about to await `check_and_migrate_data`. -/
def wAtMigrate : PC → Nat
  | PC.atMigrate => 1
  | _ => 0

/-- Weight 1 for a task that ended with an exception. -/
def wErr : PC → Nat
  | PC.doneErr => 1
  | _ => 0

/-- Weight 1 for a task that returned normally. -/
def wOk : PC → Nat
  | PC.doneOk => 1
  | _ => 0

/-- Sum of a weight over a task list (the number of tasks in a given
program-counter class). -/
def total (w : PC → Nat) : List PC → Nat
  | [] => 0
  | a :: t => w a + total w t

/-- Inductive invariant for runs whose oracle always succeeds: the lock is
held by exactly the task in the critical section, the call counters track
the critical-section occupancy, the key is cached exactly after the one
successful migration, and no task has failed (nor finished before the key
was cached). -/
def InvS (s : CState) : Prop :=
  (s.lockBusy = true → total wActive s.tasks = 1) ∧
  (s.lockBusy = false → total wActive s.tasks = 0) ∧
  s.constructions = s.initCalls + total wAtInit s.tasks ∧
  s.initCalls = s.migrateCalls + total wAtMigrate s.tasks ∧
  (s.cached = true → s.migrateCalls = 1) ∧
  (s.cached = false → s.migrateCalls = 0) ∧
  (s.cached = true → total wActive s.tasks = 0) ∧
  total wErr s.tasks = 0 ∧
  (s.cached = false → total wOk s.tasks = 0)

/-- Inductive invariant for runs whose oracle fails one of the two steps:
the key never becomes cached, no task returns normally, and when already
`initialize_storages` fails no task reaches the migration await. -/
def InvF (o : Oracle) (s : CState) : Prop :=
  s.cached = false ∧
  total wOk s.tasks = 0 ∧
  (o.initOk = false → total wAtMigrate s.tasks = 0)

/-- Completed two-task run under the all-success oracle (used as a
concrete instantiation of the main theorem). -/
def finalStateOk : CState :=
  ⟨true, false, 1, 1, 1, [PC.doneOk, PC.doneOk]⟩

/-- Completed two-task run under the failing-storage-init oracle: both
tasks ran their own construction and `initialize_storages` attempt. -/
def finalStateErr : CState :=
  ⟨false, false, 2, 2, 0, [PC.doneErr, PC.doneErr]⟩

end Conc

/-! ## Basic lemmas about the dict model -/

@[simp]
theorem lookupA_nil {α : Type} (k : String) :
    lookupA ([] : List (String × α)) k = none := rfl

@[simp]
theorem lookupA_cons {α : Type} (k0 : String) (v : α) (t : List (String × α))
    (k : String) :
    lookupA ((k0, v) :: t) k = if k0 = k then some v else lookupA t k := rfl

theorem lookupA_insertA {α : Type} (l : List (String × α)) (k k' : String) (v : α) :
    lookupA (insertA l k v) k' = if k = k' then some v else lookupA l k' := by
  induction l with
  | nil => simp [insertA]
  | cons p t ih =>
    obtain ⟨k0, v0⟩ := p
    by_cases h0 : k0 = k
    · subst h0
      by_cases h1 : k0 = k'
      · simp [insertA, h1]
      · simp [insertA, h1]
    · by_cases h1 : k0 = k'
      · subst h1
        have hne : k ≠ k0 := fun hh => h0 hh.symm
        simp [insertA, h0, hne]
      · simp [insertA, h0, h1, ih]

/-! ## C1: error classification of expired tokens -/

/-- Helper: a successful `jwt.decode` returns the token's own payload. -/
theorem jwtDecode_ok_payload {tok : Token} {s a : String} {now : Int}
    {p : TokenPayload} (h : jwtDecode tok s a now = .ok p) : p = tok.payload := by
  unfold jwtDecode at h
  split at h
  · split at h
    · exact absurd h (by simp)
    · simpa using h.symm
  · exact absurd h (by simp)

/-- C1 (counterexample): a token issued with `expire_hours = 0` at time
1000 and validated at time 1000 fails with the invalid-token error, not
the expired-token error — the library's `ExpiredSignatureError` is a
`PyJWTError` caught by the generic handler, so the claimed expired-token
error is not produced. -/
theorem validate_token_expired_gives_invalid_cex :
    hA.validate_token tokExpired 1000 1000 =
      .error { status_code := 401, detail := "Invalid token" } ∧
    ({ status_code := 401, detail := "Invalid token" } : HTTPException) ≠
      { status_code := 401, detail := "Token expired" } := by
  constructor
  · rfl
  · decide

/-- C1 (amended): for a well-signed token, an expiry not strictly in the
future at the library's decode step yields the invalid-token error
("Invalid token"); the expired-token error ("Token expired") is produced
exactly when the decode-time check passes but the expiry is no longer
strictly in the future at the subsequent explicit re-check. -/
theorem validate_token_expiry_error_paths (h : AuthHandler) (tok : Token)
    (tDec tChk : Int)
    (hsig : tok.secret = h.secret ∧ tok.algorithm = h.algorithm) :
    (tok.payload.exp ≤ tDec →
      h.validate_token tok tDec tChk =
        .error { status_code := 401, detail := "Invalid token" }) ∧
    (tDec < tok.payload.exp → tok.payload.exp < tChk →
      h.validate_token tok tDec tChk =
        .error { status_code := 401, detail := "Token expired" }) := by
  constructor
  · intro hexp
    simp [AuthHandler.validate_token, jwtDecode, hsig.1, hsig.2, hexp]
  · intro h1 h2
    have hA' : ¬ (tok.payload.exp ≤ tDec) := not_le.mpr h1
    simp [AuthHandler.validate_token, jwtDecode, hsig.1, hsig.2, hA', h2]

/-- C1 amended-claim witness at concrete inputs: the alice token with
expiry 1000 yields "Invalid token" when decoded at 1000, and "Token
expired" when decoded at 999 but re-checked at 1001. -/
theorem validate_token_expiry_error_paths_witness :
    hA.validate_token tokExpired 1000 1000 =
      .error { status_code := 401, detail := "Invalid token" } ∧
    hA.validate_token tokExpired 999 1001 =
      .error { status_code := 401, detail := "Token expired" } :=
  ⟨(validate_token_expiry_error_paths hA tokExpired 1000 1000
      ⟨rfl, rfl⟩).1 (by decide),
   (validate_token_expiry_error_paths hA tokExpired 999 1001
      ⟨rfl, rfl⟩).2 (by decide) (by decide)⟩

/-! ## C6: issue/validate round trip -/

/-- C6: for a username present in the credential store, validating a token
issued by `create_token(u, role="user")` before its expiry returns the
username, the role "user", and the workspace configured for the user
("default" when the record has no workspace). -/
theorem create_token_validate_roundtrip (h : AuthHandler) (u : String)
    (rec : UserRecord) (now tDec tChk : Int)
    (hu : lookupA h.user_map u = some rec)
    (hd : tDec < now + h.expire_hours * 3600)
    (hc : tChk ≤ now + h.expire_hours * 3600) :
    h.validate_token (h.create_token u "user" none none now) tDec tChk =
      .ok { username := u
            role := "user"
            metadata := [("workspace", rec.workspace.getD "default")]
            exp := now + h.expire_hours * 3600
            workspace := rec.workspace.getD "default" } := by
  have hd' : ¬ (now + h.expire_hours * 3600 ≤ tDec) := not_le.mpr hd
  have hc' : ¬ (tChk > now + h.expire_hours * 3600) := not_lt.mpr hc
  simp [AuthHandler.create_token, AuthHandler.validate_token, jwtDecode,
        AuthHandler.get_user_workspace, hu, insertA, hd', hc']

/-- C6 witness: alice's token issued at 0 with the default 24-hour expiry
validates at time 5 to alice / "user" / workspace "acme". -/
theorem create_token_validate_roundtrip_witness :
    hA.validate_token (hA.create_token "alice" "user" none none 0) 5 5 =
      .ok { username := "alice"
            role := "user"
            metadata := [("workspace", "acme")]
            exp := 86400
            workspace := "acme" } :=
  create_token_validate_roundtrip hA "alice" aliceRecord 0 5 5
    (by decide) (by decide) (by decide)

/-! ## C10: the top-level workspace field comes from the credential store -/

/-- C10: every successful validation returns as its top-level workspace
the workspace resolved from the credential store for the token's subject
("default" when the subject is unknown), regardless of any
metadata-embedded workspace, which is preserved unchanged inside the
returned metadata map. -/
theorem validate_token_workspace_from_store (h : AuthHandler) (tok : Token)
    (tDec tChk : Int) (r : ValidatedUser)
    (hok : h.validate_token tok tDec tChk = .ok r) :
    r.workspace = h.get_user_workspace tok.payload.sub ∧
    (lookupA h.user_map tok.payload.sub = none → r.workspace = "default") ∧
    (∀ w, lookupA tok.payload.metadata "workspace" = some w →
      lookupA r.metadata "workspace" = some w) := by
  unfold AuthHandler.validate_token at hok
  cases hjd : jwtDecode tok h.secret h.algorithm tDec with
  | error e =>
    rw [hjd] at hok
    exact absurd hok (by simp)
  | ok payload =>
    have hp : payload = tok.payload := jwtDecode_ok_payload hjd
    rw [hjd] at hok
    dsimp only at hok
    by_cases hchk : tChk > payload.exp
    · rw [if_pos hchk] at hok
      exact absurd hok (by simp)
    · rw [if_neg hchk] at hok
      simp only [Except.ok.injEq] at hok
      subst hok
      subst hp
      refine ⟨rfl, ?_, ?_⟩
      · intro hn
        simp [AuthHandler.get_user_workspace, hn]
      · intro w hw
        simp [hw, Option.isSome]

/-- C10 witness: validating the token whose metadata embeds workspace
"evil" for alice (configured workspace "acme") puts "acme" in the
top-level field and keeps "evil" only inside the metadata. -/
theorem validate_token_workspace_from_store_witness :
    rMeta.workspace = hA.get_user_workspace "alice" ∧
    rMeta.workspace = "acme" ∧
    lookupA rMeta.metadata "workspace" = some "evil" := by
  have h := validate_token_workspace_from_store hA tokMetaWorkspace 0 0 rMeta rfl
  exact ⟨h.1, rfl, h.2.2 "evil" rfl⟩

/-! ## Shape lemmas for `ensure_tenant_initialized` -/

/-- In every branch of `ensure_tenant_initialized`, the resulting ready
table is either untouched or extended at the requested key with an
instance whose two setup steps have both completed. -/
theorem ensure_rag_instances_shape (m : RagManager) (ws : String) (oc : Outcomes) :
    (m.ensure_tenant_initialized ws oc).2.1.rag_instances = m.rag_instances ∨
    (∃ rag : LightRAG, rag.storagesInitialized = true ∧ rag.migrated = true ∧
      (m.ensure_tenant_initialized ws oc).2.1.rag_instances =
        insertA m.rag_instances ws rag) := by
  unfold RagManager.ensure_tenant_initialized
  dsimp only
  split
  · left; rfl
  · split
    · left; rfl
    · split
      · left; rfl
      · split
        · right; exact ⟨_, rfl, rfl, rfl⟩
        · right; exact ⟨_, rfl, rfl, rfl⟩

/-- In every branch of `ensure_tenant_initialized`, the doc-manager table
is either untouched or extended at the requested key. -/
theorem ensure_doc_managers_shape (m : RagManager) (ws : String) (oc : Outcomes) :
    (m.ensure_tenant_initialized ws oc).2.1.doc_managers = m.doc_managers ∨
    (∃ dm : DocumentManager,
      (m.ensure_tenant_initialized ws oc).2.1.doc_managers =
        insertA m.doc_managers ws dm) := by
  unfold RagManager.ensure_tenant_initialized
  dsimp only
  split
  · left; rfl
  · split
    · left; rfl
    · split
      · left; rfl
      · split
        · left; rfl
        · right; exact ⟨_, rfl⟩

/-- Either `ensure_tenant_initialized` never publishes, or its trace is
exactly lock acquisition, construction, storage initialization, migration
and publication, in that order (followed only by the lazy doc-manager
creation). -/
theorem ensure_trace_shape (m : RagManager) (ws : String) (oc : Outcomes) :
    Ev.publish ws ∉ (m.ensure_tenant_initialized ws oc).2.2 ∨
    (∃ tl, (m.ensure_tenant_initialized ws oc).2.2 =
      [Ev.acquireLock ws, Ev.construct ws, Ev.initStorages ws, Ev.migrateData ws,
       Ev.publish ws] ++ tl) := by
  unfold RagManager.ensure_tenant_initialized
  dsimp only
  split
  · left; simp
  · split
    · left; simp
    · split
      · left; simp
      · split
        · right; exact ⟨[], rfl⟩
        · right; exact ⟨[Ev.createDocManager ws], rfl⟩

/-- `ensure_tenant_initialized` on an uncached key whose two setup steps
both succeed: the call returns normally and its trace is the full
initialization sequence. -/
theorem ensure_uncached_success (m : RagManager) (ws : String) (oc : Outcomes)
    (h : lookupA m.rag_instances ws = none)
    (h1 : oc.initStoragesOk ws = none) (h2 : oc.migrateOk ws = none) :
    (m.ensure_tenant_initialized ws oc).1 = .ok () ∧
    Ev.publish ws ∈ (m.ensure_tenant_initialized ws oc).2.2 := by
  unfold RagManager.ensure_tenant_initialized
  simp only [h, h1, h2, Option.isSome_none, Bool.false_eq_true, if_false]
  split <;> simp

/-! ## C2: only fully initialized instances enter the ready table -/

/-- Helper: `ReadyInv` only looks at the ready table. -/
theorem ReadyInv_of_eq {m m' : RagManager}
    (h : m'.rag_instances = m.rag_instances) (hI : ReadyInv m) : ReadyInv m' := by
  intro ws rag hl
  exact hI ws rag (h ▸ hl)

/-- Helper: `get_rag` never changes the manager. -/
theorem get_rag_state (m : RagManager) (ws : String) : (m.get_rag ws).2 = m := by
  unfold RagManager.get_rag
  split <;> rfl

/-- Helper: `get_doc_manager` never changes the ready table. -/
theorem get_doc_manager_rag_instances (m : RagManager) (ws : String) :
    (m.get_doc_manager ws).2.rag_instances = m.rag_instances := by
  unfold RagManager.get_doc_manager
  split <;> rfl

/-- C2: every `RagManager` operation preserves the invariant that each
instance in the ready table has completed both `initialize_storages` and
`check_and_migrate_data`; moreover a publication happens only at the end
of the full ordered initialization sequence. -/
theorem ragManager_ready_invariant_preserved (m : RagManager) (ws : String)
    (oc : Outcomes) (fo : String → Option String) (hI : ReadyInv m) :
    ReadyInv (m.get_rag ws).2 ∧
    ReadyInv (m.get_doc_manager ws).2 ∧
    ReadyInv (m.ensure_tenant_initialized ws oc).2.1 ∧
    ReadyInv (m.finalize_all fo).2.1 ∧
    (Ev.publish ws ∈ (m.ensure_tenant_initialized ws oc).2.2 →
      ∃ tl, (m.ensure_tenant_initialized ws oc).2.2 =
        [Ev.acquireLock ws, Ev.construct ws, Ev.initStorages ws, Ev.migrateData ws,
         Ev.publish ws] ++ tl) := by
  refine ⟨?_, ?_, ?_, ?_, ?_⟩
  · rw [get_rag_state]; exact hI
  · exact ReadyInv_of_eq (get_doc_manager_rag_instances m ws) hI
  · rcases ensure_rag_instances_shape m ws oc with hs | ⟨rag, hst, hmg, hs⟩
    · exact ReadyInv_of_eq hs hI
    · intro ws' rag' hl
      rw [hs, lookupA_insertA] at hl
      by_cases hw : ws = ws'
      · rw [if_pos hw] at hl
        cases hl
        exact ⟨hst, hmg⟩
      · rw [if_neg hw] at hl
        exact hI ws' rag' hl
  · exact ReadyInv_of_eq rfl hI
  · intro hp
    rcases ensure_trace_shape m ws oc with hn | hy
    · exact absurd hp hn
    · exact hy

/-- C2 witness: applying the preservation theorem to the concrete manager
holding one ready instance. -/
theorem ragManager_ready_invariant_preserved_witness :
    ReadyInv (mReady.get_rag "w2").2 ∧
    ReadyInv (mReady.get_doc_manager "w2").2 ∧
    ReadyInv (mReady.ensure_tenant_initialized "w2" ocOk).2.1 ∧
    ReadyInv (mReady.finalize_all (fun _ => none)).2.1 ∧
    (Ev.publish "w2" ∈ (mReady.ensure_tenant_initialized "w2" ocOk).2.2 →
      ∃ tl, (mReady.ensure_tenant_initialized "w2" ocOk).2.2 =
        [Ev.acquireLock "w2", Ev.construct "w2", Ev.initStorages "w2",
         Ev.migrateData "w2", Ev.publish "w2"] ++ tl) := by
  have hI : ReadyInv mReady := by
    intro ws rag hl
    simp only [mReady, lookupA_cons] at hl
    by_cases hw : "w1" = ws
    · rw [if_pos hw] at hl
      cases hl
      exact ⟨rfl, rfl⟩
    · rw [if_neg hw] at hl
      simp at hl
  exact ragManager_ready_invariant_preserved mReady "w2" ocOk (fun _ => none) hI

/-! ## C3: failed initialization leaves a clean, retryable state -/

/-- C3: when initialization of an uncached workspace fails (in either
setup step), the exception is re-raised unchanged, neither the ready
table nor the doc-manager table gains an entry, and a subsequent call for
the same workspace (with succeeding steps) performs and publishes the
full initialization. -/
theorem ensure_tenant_initialized_failure_clean (m : RagManager) (ws : String)
    (oc : Outcomes) (e : String)
    (h : lookupA m.rag_instances ws = none)
    (hf : oc.initStoragesOk ws = some e ∨
          (oc.initStoragesOk ws = none ∧ oc.migrateOk ws = some e)) :
    (m.ensure_tenant_initialized ws oc).1 = .error e ∧
    (m.ensure_tenant_initialized ws oc).2.1.rag_instances = m.rag_instances ∧
    (m.ensure_tenant_initialized ws oc).2.1.doc_managers = m.doc_managers ∧
    (∀ oc2 : Outcomes, oc2.initStoragesOk ws = none → oc2.migrateOk ws = none →
      (((m.ensure_tenant_initialized ws oc).2.1).ensure_tenant_initialized ws oc2).1
          = .ok () ∧
      Ev.publish ws ∈
        (((m.ensure_tenant_initialized ws oc).2.1).ensure_tenant_initialized
          ws oc2).2.2) := by
  have hmain :
      (m.ensure_tenant_initialized ws oc).1 = .error e ∧
      (m.ensure_tenant_initialized ws oc).2.1.rag_instances = m.rag_instances ∧
      (m.ensure_tenant_initialized ws oc).2.1.doc_managers = m.doc_managers := by
    rcases hf with hf | ⟨hf1, hf2⟩
    · unfold RagManager.ensure_tenant_initialized
      simp [h, hf]
    · unfold RagManager.ensure_tenant_initialized
      simp [h, hf1, hf2]
  refine ⟨hmain.1, hmain.2.1, hmain.2.2, ?_⟩
  intro oc2 h1 h2
  have hnone : lookupA (m.ensure_tenant_initialized ws oc).2.1.rag_instances ws = none := by
    rw [hmain.2.1]; exact h
  exact ⟨(ensure_uncached_success _ ws oc2 hnone h1 h2).1,
         (ensure_uncached_success _ ws oc2 hnone h1 h2).2⟩

/-- C3 witness: on the empty manager with a failing storage
initialization, the error "boom" is re-raised, both tables stay empty,
and a retry with succeeding steps publishes. -/
theorem ensure_tenant_initialized_failure_clean_witness :
    (mEmpty.ensure_tenant_initialized "w1" ocFail).1 = .error "boom" ∧
    (mEmpty.ensure_tenant_initialized "w1" ocFail).2.1.rag_instances = [] ∧
    (mEmpty.ensure_tenant_initialized "w1" ocFail).2.1.doc_managers = [] ∧
    (((mEmpty.ensure_tenant_initialized "w1" ocFail).2.1).ensure_tenant_initialized
        "w1" ocOk).1 = .ok () ∧
    Ev.publish "w1" ∈
      (((mEmpty.ensure_tenant_initialized "w1" ocFail).2.1).ensure_tenant_initialized
        "w1" ocOk).2.2 := by
  have h := ensure_tenant_initialized_failure_clean mEmpty "w1" ocFail "boom"
    rfl (Or.inl rfl)
  have h4 := h.2.2.2 ocOk rfl rfl
  exact ⟨h.1, h.2.1, h.2.2.1, h4.1, h4.2⟩

/-! ## C4: the synchronous accessor never mutates the manager -/

/-- C4: `get_rag` on an uncached workspace returns a freshly constructed
instance, leaves the whole manager unchanged, and a subsequent
`ensure_tenant_initialized` still performs and publishes the full
initialization. -/
theorem get_rag_uncached_no_mutation (m : RagManager) (ws : String)
    (h : lookupA m.rag_instances ws = none) :
    (m.get_rag ws).1 = m._create_rag ws ∧
    (m.get_rag ws).2 = m ∧
    (∀ oc : Outcomes, oc.initStoragesOk ws = none → oc.migrateOk ws = none →
      ((m.get_rag ws).2.ensure_tenant_initialized ws oc).1 = .ok () ∧
      Ev.publish ws ∈ ((m.get_rag ws).2.ensure_tenant_initialized ws oc).2.2) := by
  refine ⟨?_, get_rag_state m ws, ?_⟩
  · unfold RagManager.get_rag
    rw [h]
  · intro oc h1 h2
    rw [get_rag_state]
    exact ensure_uncached_success m ws oc h h1 h2

/-- C4 witness: on the empty manager, `get_rag "w1"` returns the fresh
instance, changes nothing, and a following `ensure_tenant_initialized`
publishes. -/
theorem get_rag_uncached_no_mutation_witness :
    (mEmpty.get_rag "w1").1 = mEmpty._create_rag "w1" ∧
    (mEmpty.get_rag "w1").2 = mEmpty ∧
    ((mEmpty.get_rag "w1").2.ensure_tenant_initialized "w1" ocOk).1 = .ok () ∧
    Ev.publish "w1" ∈
      ((mEmpty.get_rag "w1").2.ensure_tenant_initialized "w1" ocOk).2.2 := by
  have h := get_rag_uncached_no_mutation mEmpty "w1" rfl
  have h3 := h.2.2 ocOk rfl rfl
  exact ⟨h.1, h.2.1, h3.1, h3.2⟩

/-! ## C5: teardown covers every ready instance and swallows failures -/

/-- Helper: the `finalize_storages` calls recorded by the teardown fold,
starting from any accumulator. -/
theorem finalizeCalls_foldl (fo : String → Option String)
    (l : List (String × LightRAG)) (acc : List Ev) :
    finalizeCalls (l.foldl
      (fun a p => a ++ Ev.finalize p.1 ::
        (match fo p.1 with
         | some _ => [Ev.logFinalizeError p.1]
         | none => [])) acc) =
    finalizeCalls acc ++ l.map Prod.fst := by
  induction l generalizing acc with
  | nil => simp
  | cons p t ih =>
    rw [List.foldl_cons, ih]
    cases hfo : fo p.1 <;>
      simp [finalizeCalls, List.filterMap_append, hfo]

/-- C5: `finalize_all` returns normally for every failure pattern of the
per-instance `finalize_storages` calls, and invokes `finalize_storages`
exactly once per entry of the ready table, in table order. -/
theorem finalize_all_covers_all_and_swallows (m : RagManager)
    (fo : String → Option String) :
    (m.finalize_all fo).1 = .ok () ∧
    finalizeCalls (m.finalize_all fo).2.2 = m.rag_instances.map Prod.fst := by
  refine ⟨rfl, ?_⟩
  unfold RagManager.finalize_all
  dsimp only
  rw [finalizeCalls_foldl]
  rfl

/-! ## C7: fast path of `ensure_tenant_initialized` -/

/-- C7: for a workspace already in the ready table,
`ensure_tenant_initialized` returns success immediately with the manager
unchanged (locks included) and an empty event trace — no lock
acquisition, no construction, no collaborator call. -/
theorem ensure_tenant_initialized_fast_path (m : RagManager) (ws : String)
    (oc : Outcomes) (rag : LightRAG)
    (h : lookupA m.rag_instances ws = some rag) :
    m.ensure_tenant_initialized ws oc = (.ok (), m, []) := by
  unfold RagManager.ensure_tenant_initialized
  rw [h]
  rfl

/-- C7 witness: the concrete manager caching "w1" is returned untouched
with an empty trace, even under the failing oracle. -/
theorem ensure_tenant_initialized_fast_path_witness :
    mReady.ensure_tenant_initialized "w1" ocFail = (.ok (), mReady, []) :=
  ensure_tenant_initialized_fast_path mReady "w1" ocFail readyRag rfl

/-! ## C9: the proxies forward every access to the per-workspace instance -/

/-- C9: for every attribute name that is not one of the proxy's own
members, access on the RAG-engine proxy equals resolving the instance via
`get_rag` at the current ambient workspace and accessing it; access on the
document-manager proxy equals resolving via `get_doc_manager` at the
current ambient workspace and accessing it, with the same (possibly
lazily extended) manager state. -/
theorem proxy_access_forwards (rp : LightRAGProxy) (dp : DocumentManagerProxy)
    (ctx : Option String) (name : String)
    (h1 : name ∉ lightRAGProxyOwnMembers)
    (h2 : name ∉ documentManagerProxyOwnMembers) :
    rp.access ctx name =
      .forwarded
        (((rp.rag_manager.get_rag (current_workspace_get ctx)).1).getattr name) ∧
    (dp.access ctx name).1 =
      .forwarded
        (((dp.rag_manager.get_doc_manager (current_workspace_get ctx)).1).getattr
          name) ∧
    (dp.access ctx name).2 =
      (dp.rag_manager.get_doc_manager (current_workspace_get ctx)).2 := by
  refine ⟨?_, ?_, ?_⟩ <;>
    simp [LightRAGProxy.access, DocumentManagerProxy.access,
          LightRAGProxy._get_instance, DocumentManagerProxy._get_instance, h1, h2]

/-- C9 witness: with the ambient workspace set to "w1" and the concrete
ready manager, the RAG proxy's "workspace" access forwards to the cached
instance's value. -/
theorem proxy_access_forwards_witness :
    (LightRAGProxy.mk mReady).access (some "w1") "workspace" =
      .forwarded (some (.str "w1")) ∧
    ((DocumentManagerProxy.mk mReady).access (some "w1") "workspace").1 =
      .forwarded (some (.str "w1")) ∧
    ((DocumentManagerProxy.mk mReady).access (some "w1") "workspace").2 =
      (mReady.get_doc_manager "w1").2 := by
  have h := proxy_access_forwards (LightRAGProxy.mk mReady)
    (DocumentManagerProxy.mk mReady) (some "w1") "workspace"
    (by decide) (by decide)
  exact ⟨h.1.trans (by rfl), h.2.1.trans (by rfl), h.2.2⟩

/-! ## C8: concurrent `ensure_tenant_initialized` calls for one key -/

/-- Weight sums distribute over list append. -/
theorem total_append (w : Conc.PC → Nat) (l1 l2 : List Conc.PC) :
    Conc.total w (l1 ++ l2) = Conc.total w l1 + Conc.total w l2 := by
  induction l1 with
  | nil => simp [Conc.total]
  | cons a t ih =>
    rw [List.cons_append]
    simp only [Conc.total]
    rw [ih]
    omega

/-- A weight vanishing on every member gives a zero sum. -/
theorem total_eq_zero_of (w : Conc.PC → Nat) (l : List Conc.PC)
    (h : ∀ a ∈ l, w a = 0) : Conc.total w l = 0 := by
  induction l with
  | nil => rfl
  | cons a t ih =>
    simp only [Conc.total]
    rw [h a (List.mem_cons_self a t), ih fun x hx => h x (List.mem_cons_of_mem a hx)]

/-- A zero weight sum forces the weight to vanish on every member. -/
theorem total_zero_mem (w : Conc.PC → Nat) (l : List Conc.PC)
    (h : Conc.total w l = 0) : ∀ a ∈ l, w a = 0 := by
  induction l with
  | nil =>
    intro a ha
    simp at ha
  | cons a t ih =>
    simp only [Conc.total] at h
    intro x hx
    rcases List.mem_cons.mp hx with rfl | hx
    · omega
    · exact ih (by omega) x hx

/-- A list of `start` program counters has zero weight for every weight
vanishing on `start`. -/
theorem total_replicate_start (w : Conc.PC → Nat) (n : Nat)
    (hw : w Conc.PC.start = 0) :
    Conc.total w (List.replicate n Conc.PC.start) = 0 :=
  total_eq_zero_of w _ fun a ha => by
    rw [List.eq_of_mem_replicate ha]
    exact hw

/-- The success invariant holds initially. -/
theorem invS_init (n : Nat) : Conc.InvS (Conc.init n) := by
  refine ⟨?_, ?_, ?_, ?_, ?_, ?_, ?_, ?_, ?_⟩ <;>
    simp [Conc.init, total_replicate_start, Conc.wActive, Conc.wAtInit,
      Conc.wAtMigrate, Conc.wErr, Conc.wOk]

/-- The success invariant is preserved by every step when both
collaborator calls succeed. -/
theorem invS_step {o : Conc.Oracle} (hIo : o.initOk = true) (hMo : o.migOk = true)
    {s t : Conc.CState} (hs : Conc.InvS s) (hst : Conc.Step o s t) :
    Conc.InvS t := by
  obtain ⟨h1, h2, h3, h4, h5, h6, h7, h8, h9⟩ := hs
  cases hst with
  | fast l r lk c i m =>
    simp only [Conc.InvS, total_append, Conc.total, Conc.wActive, Conc.wAtInit,
      Conc.wAtMigrate, Conc.wErr, Conc.wOk, eq_self_iff_true, true_implies,
      Bool.false_eq_true, Bool.true_eq_false, false_implies, and_true,
      true_and] at h1 h2 h3 h4 h5 h6 h7 h8 h9 ⊢
    cases lk <;> simp_all
  | acquireConstruct l r c i m =>
    simp only [Conc.InvS, total_append, Conc.total, Conc.wActive, Conc.wAtInit,
      Conc.wAtMigrate, Conc.wErr, Conc.wOk, eq_self_iff_true, true_implies,
      Bool.false_eq_true, Bool.true_eq_false, false_implies, and_true,
      true_and] at h1 h2 h3 h4 h5 h6 h7 h8 h9 ⊢
    omega
  | enqueue l r lk c i m =>
    simp only [Conc.InvS, total_append, Conc.total, Conc.wActive, Conc.wAtInit,
      Conc.wAtMigrate, Conc.wErr, Conc.wOk, eq_self_iff_true, true_implies,
      Bool.false_eq_true, Bool.true_eq_false, false_implies, and_true,
      true_and] at h1 h2 h3 h4 h5 h6 h7 h8 h9 ⊢
    cases lk <;> simp_all
  | wakeHit l r c i m =>
    simp only [Conc.InvS, total_append, Conc.total, Conc.wActive, Conc.wAtInit,
      Conc.wAtMigrate, Conc.wErr, Conc.wOk, eq_self_iff_true, true_implies,
      Bool.false_eq_true, Bool.true_eq_false, false_implies, and_true,
      true_and] at h1 h2 h3 h4 h5 h6 h7 h8 h9 ⊢
    omega
  | wakeConstruct l r c i m =>
    simp only [Conc.InvS, total_append, Conc.total, Conc.wActive, Conc.wAtInit,
      Conc.wAtMigrate, Conc.wErr, Conc.wOk, eq_self_iff_true, true_implies,
      Bool.false_eq_true, Bool.true_eq_false, false_implies, and_true,
      true_and] at h1 h2 h3 h4 h5 h6 h7 h8 h9 ⊢
    omega
  | initSucc l r b c i m h =>
    simp only [Conc.InvS, total_append, Conc.total, Conc.wActive, Conc.wAtInit,
      Conc.wAtMigrate, Conc.wErr, Conc.wOk, eq_self_iff_true, true_implies,
      Bool.false_eq_true, Bool.true_eq_false, false_implies, and_true,
      true_and] at h1 h2 h3 h4 h5 h6 h7 h8 h9 ⊢
    cases b <;> simp_all
    omega
  | initFail l r b c i m h =>
    simp [hIo] at h
  | migSucc l r b c i m h =>
    simp only [Conc.InvS, total_append, Conc.total, Conc.wActive, Conc.wAtInit,
      Conc.wAtMigrate, Conc.wErr, Conc.wOk, eq_self_iff_true, true_implies,
      Bool.false_eq_true, Bool.true_eq_false, false_implies, and_true,
      true_and] at h1 h2 h3 h4 h5 h6 h7 h8 h9 ⊢
    cases b <;> simp_all
    omega
  | migFail l r b c i m h =>
    simp [hMo] at h

/-- The success invariant holds in every reachable state. -/
theorem invS_reaches {o : Conc.Oracle} (hIo : o.initOk = true)
    (hMo : o.migOk = true) {s t : Conc.CState} (h0 : Conc.InvS s)
    (h : Conc.Reaches o s t) : Conc.InvS t := by
  induction h with
  | refl => exact h0
  | tail hab hbc ih => exact invS_step hIo hMo ih hbc

/-- The failure invariant holds initially. -/
theorem invF_init (o : Conc.Oracle) (n : Nat) : Conc.InvF o (Conc.init n) := by
  refine ⟨rfl, ?_, fun _ => ?_⟩ <;>
    simp [Conc.init, total_replicate_start, Conc.wOk, Conc.wAtMigrate]

/-- The failure invariant is preserved by every step when one of the two
collaborator calls fails. -/
theorem invF_step {o : Conc.Oracle}
    (hNo : ¬(o.initOk = true ∧ o.migOk = true))
    {s t : Conc.CState} (hs : Conc.InvF o s) (hst : Conc.Step o s t) :
    Conc.InvF o t := by
  obtain ⟨h1, h2, h3⟩ := hs
  cases hst with
  | fast l r lk c i m =>
    simp at h1
  | acquireConstruct l r c i m =>
    refine ⟨rfl, ?_, fun hf => ?_⟩
    · simp only [total_append, Conc.total, Conc.wOk] at h2 ⊢
      omega
    · have h' := h3 hf
      simp only [total_append, Conc.total, Conc.wAtMigrate] at h' ⊢
      omega
  | enqueue l r lk c i m =>
    refine ⟨rfl, ?_, fun hf => ?_⟩
    · simp only [total_append, Conc.total, Conc.wOk] at h2 ⊢
      omega
    · have h' := h3 hf
      simp only [total_append, Conc.total, Conc.wAtMigrate] at h' ⊢
      omega
  | wakeHit l r c i m =>
    simp at h1
  | wakeConstruct l r c i m =>
    refine ⟨rfl, ?_, fun hf => ?_⟩
    · simp only [total_append, Conc.total, Conc.wOk] at h2 ⊢
      omega
    · have h' := h3 hf
      simp only [total_append, Conc.total, Conc.wAtMigrate] at h' ⊢
      omega
  | initSucc l r b c i m h =>
    refine ⟨h1, ?_, fun hf => ?_⟩
    · simp only [total_append, Conc.total, Conc.wOk] at h2 ⊢
      omega
    · rw [h] at hf
      simp at hf
  | initFail l r b c i m h =>
    refine ⟨h1, ?_, fun hf => ?_⟩
    · simp only [total_append, Conc.total, Conc.wOk] at h2 ⊢
      omega
    · have h' := h3 hf
      simp only [total_append, Conc.total, Conc.wAtMigrate] at h' ⊢
      omega
  | migSucc l r b c i m h =>
    cases hIni : o.initOk with
    | true => exact absurd ⟨hIni, h⟩ hNo
    | false =>
      have h' := h3 hIni
      simp only [total_append, Conc.total, Conc.wAtMigrate] at h'
      omega
  | migFail l r b c i m h =>
    refine ⟨h1, ?_, fun hf => ?_⟩
    · simp only [total_append, Conc.total, Conc.wOk] at h2 ⊢
      omega
    · have h' := h3 hf
      simp only [total_append, Conc.total, Conc.wAtMigrate] at h' ⊢
      omega

/-- The failure invariant holds in every reachable state. -/
theorem invF_reaches {o : Conc.Oracle}
    (hNo : ¬(o.initOk = true ∧ o.migOk = true)) {s t : Conc.CState}
    (h0 : Conc.InvF o s) (h : Conc.Reaches o s t) : Conc.InvF o t := by
  induction h with
  | refl => exact h0
  | tail hab hbc ih => exact invF_step hNo ih hbc

/-- Every step preserves the number of tasks. -/
theorem step_tasks_length {o : Conc.Oracle} {s t : Conc.CState}
    (h : Conc.Step o s t) : t.tasks.length = s.tasks.length := by
  cases h <;> simp

/-- Reachability preserves the number of tasks. -/
theorem reaches_tasks_length {o : Conc.Oracle} {s t : Conc.CState}
    (h : Conc.Reaches o s t) : t.tasks.length = s.tasks.length := by
  induction h with
  | refl => rfl
  | tail hab hbc ih => rw [step_tasks_length hbc, ih]

/-- C8 (amended): in every completed interleaving of N concurrent
`ensure_tenant_initialized(k)` calls from the uncached state, (a) if both
setup steps succeed, exactly one construction, one `initialize_storages`
and one `check_and_migrate_data` ran, the key is cached, and every caller
returned normally; (b) if a setup step fails, the key is left uncached
and every caller observes the failure (each attempt having run its own
construction sequence). -/
theorem concurrent_ensure_outcomes (o : Conc.Oracle) (n : Nat)
    (s : Conc.CState) (hR : Conc.Reaches o (Conc.init n) s)
    (hF : Conc.Final s) :
    (o.initOk = true → o.migOk = true → 1 ≤ n →
      s.cached = true ∧ s.constructions = 1 ∧ s.initCalls = 1 ∧
      s.migrateCalls = 1 ∧ ∀ pc ∈ s.tasks, pc = Conc.PC.doneOk) ∧
    (¬(o.initOk = true ∧ o.migOk = true) →
      s.cached = false ∧ ∀ pc ∈ s.tasks, pc = Conc.PC.doneErr) := by
  constructor
  · intro hIo hMo hn
    obtain ⟨h1, h2, h3, h4, h5, h6, h7, h8, h9⟩ := invS_reaches hIo hMo (invS_init n) hR
    have hAI : Conc.total Conc.wAtInit s.tasks = 0 := by
      refine total_eq_zero_of _ _ ?_
      intro pc hpc
      rcases hF pc hpc with h | h <;> subst h <;> rfl
    have hAM : Conc.total Conc.wAtMigrate s.tasks = 0 := by
      refine total_eq_zero_of _ _ ?_
      intro pc hpc
      rcases hF pc hpc with h | h <;> subst h <;> rfl
    have hAllOk : ∀ pc ∈ s.tasks, pc = Conc.PC.doneOk := by
      intro pc hpc
      rcases hF pc hpc with h | h
      · exact h
      · exfalso
        subst h
        have hh := total_zero_mem _ _ h8 _ hpc
        simp [Conc.wErr] at hh
    have hlen : s.tasks.length = n := by
      have hl := reaches_tasks_length hR
      simpa [Conc.init] using hl
    have hc : s.cached = true := by
      cases hcs : s.cached with
      | true => rfl
      | false =>
        exfalso
        have h0 := h9 hcs
        cases htask : s.tasks with
        | nil =>
          rw [htask] at hlen
          simp at hlen
          omega
        | cons a tl =>
          have ha : a = Conc.PC.doneOk := by
            apply hAllOk
            rw [htask]
            exact List.mem_cons_self a tl
          have hh := total_zero_mem _ _ h0 a (by rw [htask]; exact List.mem_cons_self a tl)
          rw [ha] at hh
          simp [Conc.wOk] at hh
    have hm : s.migrateCalls = 1 := h5 hc
    exact ⟨hc, by omega, by omega, hm, hAllOk⟩
  · intro hNo
    obtain ⟨h1, h2, h3⟩ := invF_reaches hNo (invF_init o n) hR
    refine ⟨h1, ?_⟩
    intro pc hpc
    rcases hF pc hpc with h | h
    · exfalso
      have hh := total_zero_mem _ _ h2 _ hpc
      subst h
      simp [Conc.wOk] at hh
    · exact h

/-- C8 witness: a completed two-task interleaving under the all-success
oracle, instantiating the theorem: exactly one construction and one call
to each setup step, with both callers succeeding. -/
theorem concurrent_ensure_outcomes_witness :
    Conc.finalStateOk.cached = true ∧ Conc.finalStateOk.constructions = 1 ∧
    Conc.finalStateOk.initCalls = 1 ∧ Conc.finalStateOk.migrateCalls = 1 := by
  have a1 := Conc.Step.acquireConstruct (o := ⟨true, true⟩) [] [Conc.PC.start] 0 0 0
  have a2 := Conc.Step.enqueue (o := ⟨true, true⟩) [Conc.PC.atInit] [] true 1 0 0
  have a3 := Conc.Step.initSucc (o := ⟨true, true⟩) [] [Conc.PC.waiting] false 1 0 0 rfl
  have a4 := Conc.Step.migSucc (o := ⟨true, true⟩) [] [Conc.PC.waiting] false 1 1 0 rfl
  have a5 := Conc.Step.wakeHit (o := ⟨true, true⟩) [Conc.PC.doneOk] [] 1 1 1
  have hR : Conc.Reaches ⟨true, true⟩ (Conc.init 2) Conc.finalStateOk :=
    .tail (.tail (.tail (.tail (.single a1) a2) a3) a4) a5
  have hF : Conc.Final Conc.finalStateOk := by
    unfold Conc.Final
    decide
  have h := (concurrent_ensure_outcomes ⟨true, true⟩ 2 Conc.finalStateOk hR hF).1
    rfl rfl (by omega)
  exact ⟨h.1, h.2.1, h.2.2.1, h.2.2.2.1⟩

/-- C8 counterexample: with two concurrent callers and a persistently
failing `initialize_storages`, a completed real interleaving runs the
construction-and-initialization sequence twice (two constructions, two
`initialize_storages` calls), contradicting the claim that exactly one
such sequence runs; both callers observe the failure and the key stays
uncached. -/
theorem concurrent_ensure_single_sequence_cex :
    Conc.Reaches ⟨false, true⟩ (Conc.init 2) Conc.finalStateErr ∧
    Conc.Final Conc.finalStateErr ∧
    Conc.finalStateErr.initCalls = 2 ∧
    Conc.finalStateErr.constructions = 2 ∧
    Conc.finalStateErr.cached = false ∧
    (∀ pc ∈ Conc.finalStateErr.tasks, pc = Conc.PC.doneErr) := by
  have a1 := Conc.Step.acquireConstruct (o := ⟨false, true⟩) [] [Conc.PC.start] 0 0 0
  have a2 := Conc.Step.initFail (o := ⟨false, true⟩) [] [Conc.PC.start] false 1 0 0 rfl
  have a3 := Conc.Step.acquireConstruct (o := ⟨false, true⟩) [Conc.PC.doneErr] [] 1 1 0
  have a4 := Conc.Step.initFail (o := ⟨false, true⟩) [Conc.PC.doneErr] [] false 2 1 0 rfl
  refine ⟨.tail (.tail (.tail (.single a1) a2) a3) a4, ?_, rfl, rfl, rfl, by decide⟩
  unfold Conc.Final
  decide

end LightRAGSpec
